import Mathlib

/-!
Verification of the dify-api-helper repository: a shallow embedding of
`dify_client.py` (the `DifyClient` session/auth wrapper) and
`api_server.py` (the Flask front end), together with theorems settling
the specification claims.

Modelling conventions:
* JSON documents are the inductive `Json`; decoded Python dicts are
  `Json.obj` association lists with unique keys (the `json` module never
  produces duplicates), so key assignment is `setKv` (replace in place,
  append new keys at the end — Python dict insertion-order semantics).
* The HTTP transport is an oracle: each operation receives the
  `HttpResponse` the remote would return for each request it issues, and
  returns the trace of `Request` values it sent.  `raise_for_status`
  raises exactly on a non-2xx final status (redirects and informational
  responses are resolved inside the transport library, which the spec
  places out of scope).
* Python exceptions are the `ClientErr` type; the exception message text
  is abstracted by `ClientErr.message` (the real text embeds URLs and
  library wording; no claim depends on it).
* Python type annotations are unenforced, and the front end passes
  decoded JSON values straight through, so payload parameters are typed
  `Json` in the model.
-/

namespace DifyHelper

/-- A JSON value, as produced by `response.json()` / consumed by `json=`. -/
inductive Json where
  | null
  | bool (b : Bool)
  | num (n : Int)
  | str (s : String)
  | arr (xs : List Json)
  | obj (kvs : List (String × Json))

/-- Association-list lookup: `d[k]` / `d.get(k)` on a decoded dict. -/
def lookupKv : List (String × Json) → String → Option Json
  | [], _ => none
  | (k, v) :: rest, key => if k = key then some v else lookupKv rest key

/-- Key assignment `d[k] = v` on a decoded dict: replaces the value in
place when the key exists, appends at the end otherwise (Python dict
insertion-order semantics). -/
def setKv : List (String × Json) → String → Json → List (String × Json)
  | [], key, v => [(key, v)]
  | (k, w) :: rest, key, v =>
      if k = key then (key, v) :: rest else (k, w) :: setKv rest key v

/-- Lookup of a key on a JSON value, as in Python `j.get(k)`: keys only
exist on objects. -/
def Json.lookup : Json → String → Option Json
  | .obj kvs, key => lookupKv kvs key
  | _, _ => none

/-- Python truthiness of a decoded JSON value (`not x` is its negation). -/
def Json.truthy : Json → Bool
  | .null => false
  | .bool b => b
  | .num n => n != 0
  | .str s => s != ""
  | .arr xs => !xs.isEmpty
  | .obj kvs => !kvs.isEmpty

/-- Python `==` between a decoded JSON value and a string literal:
only a string with the same contents compares equal. -/
def Json.eqStrLit (j : Json) (s : String) : Bool :=
  match j with
  | .str t => t = s
  | _ => false

/-- Python `str.rstrip("/")`: drop trailing slashes. -/
def rstripSlash (s : String) : String :=
  String.mk ((s.data.reverse.dropWhile (fun c => c = '/')).reverse)

/-- The final HTTP response the transport delivers for one request. -/
structure HttpResponse where
  status : Nat
  body : Json

/-- Success statuses, `200 <= status < 300`: what `raise_for_status` lets through
(the oracle delivers final responses, so non-2xx means failure). -/
def is2xx (status : Nat) : Bool :=
  200 ≤ status && status < 300

/-- One HTTP request issued by the client, with the Authorization header
the session attached (if any). -/
structure Request where
  method : String
  url : String
  authHeader : Option String
  body : Option Json

/-- A raised Python exception, as seen by the front end handlers. -/
inductive ClientErr where
  | httpError (status : Nat) (body : Json)
  | keyError (key : String)
  | typeError
  | attrError

/-- Message `str(e)` of a raised exception.  The concrete text of `requests`
error messages embeds the URL and library wording; the model keeps a
deterministic abbreviation, since no claim inspects the message. -/
def ClientErr.message : ClientErr → String
  | .httpError status _ => toString status ++ " Error"
  | .keyError key => "KeyError " ++ key
  | .typeError => "TypeError"
  | .attrError => "AttributeError"

/-- Whether the first character list starts with the second. -/
def charsStartWith : List Char → List Char → Bool
  | _, [] => true
  | [], _ :: _ => false
  | c :: cs, k :: ks => k == c && charsStartWith cs ks

/-- Whether the second character list occurs inside the first, i.e. is
a prefix of one of its suffixes. -/
def charsContain : List Char → List Char → Bool
  | [], key => charsStartWith [] key
  | c :: cs, key => charsStartWith (c :: cs) key || charsContain cs key

/-- Python substring test `key in s` on strings (true for the empty
key, as in Python; the keys tested in the source are "data" and
"access_token"). -/
def strContains (s key : String) : Bool :=
  charsContain s.data key.data

/-- Python membership test `key in j` on a decoded JSON value: key
membership on a dict, element membership on a list (a JSON element
equals a string key only when it is that string), substring test on a
string; on any other value `in` raises TypeError. -/
def Json.containsKey (j : Json) (key : String) : Except ClientErr Bool :=
  match j with
  | .obj kvs => .ok (lookupKv kvs key).isSome
  | .arr xs => .ok (xs.any (fun x => Json.eqStrLit x key))
  | .str s => .ok (strContains s key)
  | _ => .error .typeError

/-- Python subscript `j[key]` with a string key on a decoded JSON value:
dict lookup, raising KeyError when the key is absent; on any non-dict
value (a list, a string, null, a number, a boolean) it raises
TypeError. -/
def Json.getItem (j : Json) (key : String) : Except ClientErr Json :=
  match j with
  | .obj kvs =>
      match lookupKv kvs key with
      | some v => .ok v
      | none => .error (.keyError key)
  | _ => .error .typeError

/-- The mutable state of a `DifyClient`: base/console URLs and the
session `Authorization` header (absent until a token is stored). -/
structure ClientState where
  base_url : String
  console_api : String
  authHeader : Option String

namespace DifyClient

/-- Constructor `DifyClient.__init__`: strips trailing slashes off the base URL and
derives the console-API prefix; the fresh session has no auth header. -/
def init (base_url : String) : ClientState :=
  let b := rstripSlash base_url
  { base_url := b, console_api := b ++ "/console/api", authHeader := none }

/-- Build the request `self.session.<method>` sends: console-API URL and
the session Authorization header. -/
def mkRequest (st : ClientState) (method path : String) (body : Option Json) :
    Request :=
  { method := method, url := st.console_api ++ path,
    authHeader := st.authHeader, body := body }

/-- Model of `response.raise_for_status()` followed by `return response.json()`. -/
def decodeOrRaise (r : HttpResponse) : Except ClientErr Json :=
  if is2xx r.status then .ok r.body else .error (.httpError r.status r.body)

/-- Result of a single-request client operation. -/
structure CallResult where
  req : Request
  result : Except ClientErr Json

/-- Result of `DifyClient.login`: the request sent, the session state
after the call, and the returned value or raised error. -/
structure LoginResult where
  req : Request
  state : ClientState
  result : Except ClientErr Json

/-- Result of a two-step (read-modify-write) client operation. -/
structure Call2Result where
  trace : List Request
  result : Except ClientErr Json

/-- The token-storage step of `DifyClient.login` (the guarded header
update): evaluate the short-circuit conjunction of the membership test
for "data" on the body and, when it holds, the membership test for
"access_token" on the subscripted data entry, then extract the token by
subscripting again — with full Python membership and subscript
semantics, so a non-dict data entry (null, a number, a boolean) makes
the second membership test raise TypeError, and a list or string data
entry passing that test makes the extracting subscript raise TypeError.
Returns the token to store, `none` when the guard is cleanly false, or
the raised error. -/
def tokenStep (data : Json) : Except ClientErr (Option Json) :=
  match data.containsKey "data" with
  | .error e => .error e
  | .ok false => .ok none
  | .ok true =>
      match data.getItem "data" with
      | .error e => .error e
      | .ok d =>
          match d.containsKey "access_token" with
          | .error e => .error e
          | .ok false => .ok none
          | .ok true =>
              match d.getItem "access_token" with
              | .error e => .error e
              | .ok tok => .ok (some tok)

/-- Rendering of a JSON value inside an f-string interpolation, as in
building the Bearer header text.
Only the string case is ever exercised; container renderings are
abbreviated. -/
def Json.fstr : Json → String
  | .str s => s
  | .num n => toString n
  | .bool true => "True"
  | .bool false => "False"
  | .null => "None"
  | .arr _ => "[...]"
  | .obj _ => "\x7b...\x7d"

/-- Model of `DifyClient.login`: POST credentials to `/login`, raise on
non-2xx, then run the guarded token-storage step — storing the token as
a Bearer header when one is extracted, leaving the session untouched
when the guard is cleanly false, and propagating the raised error (the
header update never runs) when the token check itself raises — and
return the decoded body. -/
def login (st : ClientState) (email password : Json) (r : HttpResponse) :
    LoginResult :=
  let payload := Json.obj [("email", email), ("password", password)]
  let req := mkRequest st "POST" "/login" (some payload)
  match decodeOrRaise r with
  | .error e => { req := req, state := st, result := .error e }
  | .ok data =>
      match tokenStep data with
      | .ok (some tok) =>
          { req := req,
            state := { st with authHeader := some ("Bearer " ++ Json.fstr tok) },
            result := .ok data }
      | .ok none => { req := req, state := st, result := .ok data }
      | .error e => { req := req, state := st, result := .error e }

/-- Model of `DifyClient.get_apps`: GET `/apps`. -/
def get_apps (st : ClientState) (r : HttpResponse) : CallResult :=
  { req := mkRequest st "GET" "/apps" none, result := decodeOrRaise r }

/-- Model of `DifyClient.get_app_detail`: GET the app detail URL. -/
def get_app_detail (st : ClientState) (app_id : String) (r : HttpResponse) :
    CallResult :=
  { req := mkRequest st "GET" ("/apps/" ++ app_id) none,
    result := decodeOrRaise r }

/-- Model of `DifyClient.create_app`: POST the name/mode/icon/description payload
to `/apps`. -/
def create_app (st : ClientState) (name mode icon description : Json)
    (r : HttpResponse) : CallResult :=
  let payload := Json.obj
    [("name", name), ("mode", mode), ("icon", icon),
     ("description", description)]
  { req := mkRequest st "POST" "/apps" (some payload),
    result := decodeOrRaise r }

/-- Model of `DifyClient.delete_app`: DELETE the app URL. -/
def delete_app (st : ClientState) (app_id : String) (r : HttpResponse) :
    CallResult :=
  { req := mkRequest st "DELETE" ("/apps/" ++ app_id) none,
    result := decodeOrRaise r }

/-- Model of `DifyClient.update_app_config`: POST the configuration document to
`/apps/{app_id}/model-config`. -/
def update_app_config (st : ClientState) (app_id : String) (config : Json)
    (r : HttpResponse) : CallResult :=
  { req := mkRequest st "POST" ("/apps/" ++ app_id ++ "/model-config")
      (some config),
    result := decodeOrRaise r }

/-- Model of `DifyClient.get_prompt_config`: GET the model-config URL. -/
def get_prompt_config (st : ClientState) (app_id : String) (r : HttpResponse) :
    CallResult :=
  { req := mkRequest st "GET" ("/apps/" ++ app_id ++ "/model-config") none,
    result := decodeOrRaise r }

/-- Model of `DifyClient.get_app_parameters`: GET the parameters URL. -/
def get_app_parameters (st : ClientState) (app_id : String)
    (r : HttpResponse) : CallResult :=
  { req := mkRequest st "GET" ("/apps/" ++ app_id ++ "/parameters") none,
    result := decodeOrRaise r }

/-- Model of `DifyClient.update_app_parameters`: POST the parameters document to
`/apps/{app_id}/parameters`. -/
def update_app_parameters (st : ClientState) (app_id : String)
    (parameters : Json) (r : HttpResponse) : CallResult :=
  { req := mkRequest st "POST" ("/apps/" ++ app_id ++ "/parameters")
      (some parameters),
    result := decodeOrRaise r }

/-- The client-side patch step of `DifyClient.update_prompt`:
assign the prompt to the prompt_template key when the mode equals
"chat",
else to the prompt key inside completion_params.  A missing
`completion_params` key raises `KeyError`; item assignment on a non-dict
raises `TypeError`. -/
def patchPrompt (current_config prompt mode : Json) : Except ClientErr Json :=
  if Json.eqStrLit mode "chat" then
    match current_config with
    | .obj kvs => .ok (.obj (setKv kvs "prompt_template" prompt))
    | _ => .error .typeError
  else
    match current_config with
    | .obj kvs =>
        match lookupKv kvs "completion_params" with
        | some (.obj cp) =>
            .ok (.obj (setKv kvs "completion_params"
              (.obj (setKv cp "prompt" prompt))))
        | some _ => .error .typeError
        | none => .error (.keyError "completion_params")
    | _ => .error .typeError

/-- Model of `DifyClient.update_prompt`: fetch the current model configuration,
patch the prompt key client-side, and write the whole document back.
`r1` answers the fetch, `r2` the write-back. -/
def update_prompt (st : ClientState) (app_id : String) (prompt mode : Json)
    (r1 r2 : HttpResponse) : Call2Result :=
  let fetch := get_prompt_config st app_id r1
  match fetch.result with
  | .error e => { trace := [fetch.req], result := .error e }
  | .ok current_config =>
      match patchPrompt current_config prompt mode with
      | .error e => { trace := [fetch.req], result := .error e }
      | .ok patched =>
          let wb := update_app_config st app_id patched r2
          { trace := [fetch.req, wb.req], result := wb.result }

/-- The `new_variable` record `DifyClient.add_variable` builds
(`label or variable_name` falls back by Python truthiness). -/
def newVariable (variable_name variable_type label required max_length : Json) :
    Json :=
  .obj [("variable", variable_name), ("type", variable_type),
        ("label", if label.truthy then label else variable_name),
        ("required", required), ("max_length", max_length)]

/-- The client-side patch step of `DifyClient.add_variable`: default
`user_input_form` to `[]` when absent, then append the new variable.
`.append` on a non-list raises. -/
def patchVariable (params new_variable : Json) : Except ClientErr Json :=
  match params with
  | .obj kvs =>
      let kvs1 :=
        if (lookupKv kvs "user_input_form").isSome then kvs
        else setKv kvs "user_input_form" (.arr [])
      match lookupKv kvs1 "user_input_form" with
      | some (.arr xs) =>
          .ok (.obj (setKv kvs1 "user_input_form" (.arr (xs ++ [new_variable]))))
      | _ => .error .typeError
  | _ => .error .typeError

/-- Model of `DifyClient.add_variable`: fetch the app parameters, append the new
variable to `user_input_form`, write the whole document back.  `r1`
answers the fetch, `r2` the write-back. -/
def add_variable (st : ClientState) (app_id : String)
    (variable_name variable_type label required max_length : Json)
    (r1 r2 : HttpResponse) : Call2Result :=
  let fetch := get_app_parameters st app_id r1
  match fetch.result with
  | .error e => { trace := [fetch.req], result := .error e }
  | .ok params =>
      let nv := newVariable variable_name variable_type label required max_length
      match patchVariable params nv with
      | .error e => { trace := [fetch.req], result := .error e }
      | .ok newParams =>
          let wb := update_app_parameters st app_id newParams r2
          { trace := [fetch.req, wb.req], result := wb.result }

end DifyClient

namespace ApiServer

/-- The error body every failing front-end endpoint returns. -/
def errObj (m : String) : Json := .obj [("error", .str m)]

/-- What one front-end request produced: HTTP status and JSON body of the
endpoint response, the trace of remote requests issued while handling it,
and the value of the global `client` afterwards. -/
structure ServerResult where
  status : Nat
  body : Json
  trace : List Request
  client : Option ClientState

/-- The `require_auth` decorator: with no global client, answer 401 with
the fixed error body and never call the wrapped handler. -/
def require_auth (cl : Option ClientState)
    (f : ClientState → ServerResult) : ServerResult :=
  match cl with
  | none =>
      { status := 401,
        body := errObj "Not authenticated. Call /login first",
        trace := [], client := none }
  | some st => f st

/-- The `/login` endpoint: validate `email`/`password` truthiness (400 on
failure, before any client is constructed), then assign a fresh
`DifyClient` to the global and call its `login`; any exception in the
`try` block answers 401, leaving the global at whatever the assignment
reached. -/
def login (cl : Option ClientState) (data : Json) (envBase : String)
    (r : HttpResponse) : ServerResult :=
  let email := (data.lookup "email").getD .null
  let password := (data.lookup "password").getD .null
  let base_url := (data.lookup "base_url").getD (.str envBase)
  if !email.truthy || !password.truthy then
    { status := 400, body := errObj "Email and password required",
      trace := [], client := cl }
  else
    match base_url with
    | .str b =>
        let st := DifyClient.init b
        let lr := DifyClient.login st email password r
        match lr.result with
        | .ok _ =>
            { status := 200,
              body := .obj [("success", .bool true),
                            ("message", .str "Logged in successfully")],
              trace := [lr.req], client := some lr.state }
        | .error e =>
            { status := 401, body := errObj e.message,
              trace := [lr.req], client := some lr.state }
    | _ =>
        { status := 401, body := errObj ClientErr.attrError.message,
          trace := [], client := cl }

/-- The `/apps` GET endpoint: delegate to `DifyClient.get_apps`; 200 with
the decoded body on success, 500 with the error message on failure. -/
def get_apps (cl : Option ClientState) (r : HttpResponse) : ServerResult :=
  require_auth cl fun st =>
    let c := DifyClient.get_apps st r
    match c.result with
    | .ok j => { status := 200, body := j, trace := [c.req], client := cl }
    | .error e =>
        { status := 500, body := errObj e.message, trace := [c.req],
          client := cl }

/-- The `/apps/<app_id>` GET endpoint. -/
def get_app_detail (cl : Option ClientState) (app_id : String)
    (r : HttpResponse) : ServerResult :=
  require_auth cl fun st =>
    let c := DifyClient.get_app_detail st app_id r
    match c.result with
    | .ok j => { status := 200, body := j, trace := [c.req], client := cl }
    | .error e =>
        { status := 500, body := errObj e.message, trace := [c.req],
          client := cl }

/-- The `/apps` POST endpoint: delegate to `DifyClient.create_app` with
the request fields (defaults `mode="chat"`, icon, empty description);
201 with the decoded body on success. -/
def create_app (cl : Option ClientState) (data : Json) (r : HttpResponse) :
    ServerResult :=
  require_auth cl fun st =>
    let c := DifyClient.create_app st
      ((data.lookup "name").getD .null)
      ((data.lookup "mode").getD (.str "chat"))
      ((data.lookup "icon").getD (.str "🤖"))
      ((data.lookup "description").getD (.str "")) r
    match c.result with
    | .ok j => { status := 201, body := j, trace := [c.req], client := cl }
    | .error e =>
        { status := 500, body := errObj e.message, trace := [c.req],
          client := cl }

/-- The `/apps/<app_id>` DELETE endpoint. -/
def delete_app (cl : Option ClientState) (app_id : String)
    (r : HttpResponse) : ServerResult :=
  require_auth cl fun st =>
    let c := DifyClient.delete_app st app_id r
    match c.result with
    | .ok j => { status := 200, body := j, trace := [c.req], client := cl }
    | .error e =>
        { status := 500, body := errObj e.message, trace := [c.req],
          client := cl }

/-- The `/apps/<app_id>/prompt` PUT endpoint: delegate to
`DifyClient.update_prompt` with the request `prompt` and `mode`
(default `"chat"`). -/
def update_prompt (cl : Option ClientState) (app_id : String) (data : Json)
    (r1 r2 : HttpResponse) : ServerResult :=
  require_auth cl fun st =>
    let c := DifyClient.update_prompt st app_id
      ((data.lookup "prompt").getD .null)
      ((data.lookup "mode").getD (.str "chat")) r1 r2
    match c.result with
    | .ok j => { status := 200, body := j, trace := c.trace, client := cl }
    | .error e =>
        { status := 500, body := errObj e.message, trace := c.trace,
          client := cl }

/-- The `/apps/<app_id>/variables` POST endpoint: delegate to
`DifyClient.add_variable` with the request fields and their defaults. -/
def add_variable (cl : Option ClientState) (app_id : String) (data : Json)
    (r1 r2 : HttpResponse) : ServerResult :=
  require_auth cl fun st =>
    let c := DifyClient.add_variable st app_id
      ((data.lookup "variable_name").getD .null)
      ((data.lookup "variable_type").getD (.str "text-input"))
      ((data.lookup "label").getD (.str ""))
      ((data.lookup "required").getD (.bool false))
      ((data.lookup "max_length").getD (.num 48)) r1 r2
    match c.result with
    | .ok j => { status := 200, body := j, trace := c.trace, client := cl }
    | .error e =>
        { status := 500, body := errObj e.message, trace := c.trace,
          client := cl }

/-- One invocation of a modelled front-end endpoint, with the decoded
request body where the endpoint reads one. -/
inductive EndpointCall where
  | loginEp (data : Json)
  | getAppsEp
  | getAppDetailEp (app_id : String)
  | createAppEp (data : Json)
  | deleteAppEp (app_id : String)
  | updatePromptEp (app_id : String) (data : Json)
  | addVariableEp (app_id : String) (data : Json)

/-- Whether the endpoint is wrapped in `require_auth` (every modelled
endpoint except `/login`). -/
def EndpointCall.isProtected : EndpointCall → Bool
  | .loginEp _ => false
  | _ => true

/-- Route one request to its handler.  `r1` answers the first remote
request the handler issues (if any), `r2` the second (read-modify-write
endpoints only). -/
def dispatch (cl : Option ClientState) (call : EndpointCall)
    (envBase : String) (r1 r2 : HttpResponse) : ServerResult :=
  match call with
  | .loginEp data => login cl data envBase r1
  | .getAppsEp => get_apps cl r1
  | .getAppDetailEp a => get_app_detail cl a r1
  | .createAppEp d => create_app cl d r1
  | .deleteAppEp a => delete_app cl a r1
  | .updatePromptEp a d => update_prompt cl a d r1 r2
  | .addVariableEp a d => add_variable cl a d r1 r2

end ApiServer

/-! ### Association-list lemmas

Key assignment on a decoded dict changes exactly the assigned key. -/

theorem lookupKv_setKv_self (kvs : List (String × Json)) (key : String)
    (v : Json) : lookupKv (setKv kvs key v) key = some v := by
  induction kvs with
  | nil => simp [setKv, lookupKv]
  | cons hd tl ih =>
      obtain ⟨k, w⟩ := hd
      by_cases h : k = key
      · simp [setKv, h, lookupKv]
      · simp [setKv, h, lookupKv, ih]

theorem lookupKv_setKv_ne (kvs : List (String × Json)) (key key' : String)
    (v : Json) (h : key' ≠ key) :
    lookupKv (setKv kvs key v) key' = lookupKv kvs key' := by
  induction kvs with
  | nil => simp [setKv, lookupKv, Ne.symm h]
  | cons hd tl ih =>
      obtain ⟨k, w⟩ := hd
      by_cases hk : k = key
      · subst hk
        simp [setKv, lookupKv, Ne.symm h]
      · simp [setKv, hk, lookupKv, ih]

theorem setKv_setKv_self (kvs : List (String × Json)) (key : String)
    (v w : Json) : setKv (setKv kvs key v) key w = setKv kvs key w := by
  induction kvs with
  | nil => simp [setKv]
  | cons hd tl ih =>
      obtain ⟨k, u⟩ := hd
      by_cases h : k = key
      · simp [setKv, h]
      · simp [setKv, h, ih]

/-! ### Claim theorems -/

/-- C2: a `DifyClient.login` call answered 2xx with an access token under
`data.access_token` stores that token in the session, and every request a
subsequent operation builds on the resulting state carries it as a
`Bearer` Authorization header; a non-2xx answer raises the transport
error unmodified and leaves the session state (hence the stored token)
unchanged. -/
theorem login_token_bearer_spec (st : ClientState) (email password : Json)
    (r : HttpResponse) :
    (∀ t : String, is2xx r.status = true →
      DifyClient.tokenStep r.body = .ok (some (.str t)) →
      (DifyClient.login st email password r).result = .ok r.body ∧
      (DifyClient.login st email password r).state.authHeader
        = some ("Bearer " ++ t) ∧
      ∀ method path body,
        (DifyClient.mkRequest (DifyClient.login st email password r).state
          method path body).authHeader = some ("Bearer " ++ t)) ∧
    (is2xx r.status = false →
      (DifyClient.login st email password r).result
        = .error (.httpError r.status r.body) ∧
      (DifyClient.login st email password r).state = st) := by
  constructor
  · intro t h2 htok
    simp [DifyClient.login, DifyClient.decodeOrRaise, h2, htok,
      DifyClient.mkRequest, DifyClient.Json.fstr]
  · intro h2
    simp [DifyClient.login, DifyClient.decodeOrRaise, h2]

/-- Witness for C2 at a concrete 2xx login response carrying a token. -/
theorem login_token_bearer_spec_witness :
    (DifyClient.login (DifyClient.init "http://h") (.str "e") (.str "p")
        ⟨200, .obj [("data", .obj [("access_token", .str "tok")])]⟩).state.authHeader
      = some ("Bearer " ++ "tok") :=
  ((login_token_bearer_spec (DifyClient.init "http://h") (.str "e") (.str "p")
      ⟨200, .obj [("data", .obj [("access_token", .str "tok")])]⟩).1
    "tok" (by decide) rfl).2.1

/-- C9 (amended): a 2xx login response on which the token check runs
cleanly but extracts no token is returned without raising and the
session state is left unchanged — hence on a client that has never
stored a token, subsequent console-API requests carry no Authorization
header, while a previously stored header persists; when the token check
itself raises (a non-dict data entry such as null, or a list or string
data entry passing the membership test), login raises that error, again
leaving the session state unchanged. -/
theorem tokenless_login_preserves_auth_state (st : ClientState)
    (email password : Json) (r : HttpResponse)
    (h2 : is2xx r.status = true) :
    (DifyClient.tokenStep r.body = .ok none →
      (DifyClient.login st email password r).result = .ok r.body ∧
      (DifyClient.login st email password r).state = st ∧
      (st.authHeader = none →
        ∀ method path body,
          (DifyClient.mkRequest (DifyClient.login st email password r).state
            method path body).authHeader = none)) ∧
    (∀ e, DifyClient.tokenStep r.body = .error e →
      (DifyClient.login st email password r).result = .error e ∧
      (DifyClient.login st email password r).state = st) := by
  constructor
  · intro hno
    refine ⟨?_, ?_, ?_⟩ <;>
      simp [DifyClient.login, DifyClient.decodeOrRaise, h2, hno,
        DifyClient.mkRequest]
  · intro e he
    constructor <;>
      simp [DifyClient.login, DifyClient.decodeOrRaise, h2, he]

/-- Witness for C9 (amended): a concrete tokenless 2xx response leaves
the fresh state unchanged, and a concrete 2xx response with a null data
entry makes login raise TypeError. -/
theorem tokenless_login_preserves_auth_state_witness :
    (DifyClient.login (DifyClient.init "http://h") (.str "e") (.str "p")
        ⟨200, .obj [("result", .str "success")]⟩).state
      = DifyClient.init "http://h" ∧
    (DifyClient.login (DifyClient.init "http://h") (.str "e") (.str "p")
        ⟨200, .obj [("data", .null)]⟩).result = .error .typeError :=
  ⟨((tokenless_login_preserves_auth_state (DifyClient.init "http://h")
      (.str "e") (.str "p") ⟨200, .obj [("result", .str "success")]⟩
      (by decide)).1 rfl).2.1,
   ((tokenless_login_preserves_auth_state (DifyClient.init "http://h")
      (.str "e") (.str "p") ⟨200, .obj [("data", .null)]⟩
      (by decide)).2 .typeError rfl).1⟩

/-- C9 counterexample: on a client that logged in successfully once, a
second login whose 2xx body carries no `data.access_token` leaves the
old Bearer header in place, so the next console-API call is *not* sent
without an Authorization header. -/
theorem relogin_without_token_keeps_old_header :
    (DifyClient.get_apps
        (DifyClient.login
          (DifyClient.login (DifyClient.init "http://h") (.str "e") (.str "p")
            ⟨200, .obj [("data", .obj [("access_token", .str "tok")])]⟩).state
          (.str "e") (.str "p")
          ⟨200, .obj [("result", .str "success")]⟩).state
        ⟨200, .obj []⟩).req.authHeader = some "Bearer tok" ∧
    (DifyClient.get_apps
        (DifyClient.login
          (DifyClient.login (DifyClient.init "http://h") (.str "e") (.str "p")
            ⟨200, .obj [("data", .obj [("access_token", .str "tok")])]⟩).state
          (.str "e") (.str "p")
          ⟨200, .obj [("result", .str "success")]⟩).state
        ⟨200, .obj []⟩).req.authHeader ≠ none := by
  exact ⟨rfl, by decide⟩

/-- C4: a `/login` request whose `email` or `password` field is missing
or empty answers 400 with the fixed error body, issues no remote request,
and constructs no client (the global client is unchanged). -/
theorem login_missing_fields_returns_400 (cl : Option ClientState)
    (data : Json) (envBase : String) (r1 r2 : HttpResponse)
    (h : data.lookup "email" = none ∨ data.lookup "email" = some (.str "") ∨
         data.lookup "password" = none ∨
         data.lookup "password" = some (.str "")) :
    ApiServer.dispatch cl (.loginEp data) envBase r1 r2
      = { status := 400, body := ApiServer.errObj "Email and password required",
          trace := [], client := cl } := by
  rcases h with h | h | h | h <;>
    simp [ApiServer.dispatch, ApiServer.login, h, Json.truthy]

/-- Witness for C4 at a request missing the password field. -/
theorem login_missing_fields_returns_400_witness :
    ApiServer.dispatch none (.loginEp (.obj [("email", .str "e")])) "http://h"
        ⟨200, .obj []⟩ ⟨200, .obj []⟩
      = { status := 400, body := ApiServer.errObj "Email and password required",
          trace := [], client := none } :=
  login_missing_fields_returns_400 none (.obj [("email", .str "e")]) "http://h"
    ⟨200, .obj []⟩ ⟨200, .obj []⟩ (Or.inr (Or.inr (Or.inl rfl)))

/-- C10: with a non-`"chat"` mode and a fetched model configuration
lacking the `completion_params` key, `update_prompt` raises `KeyError`
after the fetch and before the write-back: its trace is exactly the one
GET request, so the remote configuration is never written. -/
theorem update_prompt_missing_completion_params_aborts (st : ClientState)
    (app_id : String) (prompt mode : Json) (r1 r2 : HttpResponse)
    (kvs : List (String × Json))
    (hmode : Json.eqStrLit mode "chat" = false)
    (h2 : is2xx r1.status = true) (hb : r1.body = Json.obj kvs)
    (hcp : lookupKv kvs "completion_params" = none) :
    DifyClient.update_prompt st app_id prompt mode r1 r2
      = { trace := [DifyClient.mkRequest st "GET"
            ("/apps/" ++ app_id ++ "/model-config") none],
          result := .error (.keyError "completion_params") } := by
  simp [DifyClient.update_prompt, DifyClient.get_prompt_config,
    DifyClient.decodeOrRaise, h2, hb, DifyClient.patchPrompt, hmode, hcp]

/-- Witness for C10: completion mode against a configuration with no
`completion_params` key. -/
theorem update_prompt_missing_completion_params_aborts_witness :
    DifyClient.update_prompt (DifyClient.init "http://h") "app1"
        (.str "p") (.str "completion")
        ⟨200, .obj [("model", .str "m")]⟩ ⟨200, .obj []⟩
      = { trace := [DifyClient.mkRequest (DifyClient.init "http://h") "GET"
            "/apps/app1/model-config" none],
          result := .error (.keyError "completion_params") } :=
  update_prompt_missing_completion_params_aborts (DifyClient.init "http://h")
    "app1" (.str "p") (.str "completion")
    ⟨200, .obj [("model", .str "m")]⟩ ⟨200, .obj []⟩
    [("model", .str "m")] rfl (by decide) rfl rfl

/-- C6: `update_prompt` fetches the model configuration with one GET and
writes back, with one POST, a document equal to the fetched one except
for exactly one mutated key: `prompt_template` when the mode is
`"chat"`, `completion_params.prompt` otherwise; at every other key the
written document agrees with the fetched one (and inside
`completion_params` at every key other than `prompt`). -/
theorem update_prompt_single_key_frame (st : ClientState) (app_id : String)
    (prompt mode : Json) (r1 r2 : HttpResponse) (kvs : List (String × Json))
    (h2 : is2xx r1.status = true) (hb : r1.body = Json.obj kvs) :
    (Json.eqStrLit mode "chat" = true →
      (DifyClient.update_prompt st app_id prompt mode r1 r2).trace
        = [DifyClient.mkRequest st "GET"
             ("/apps/" ++ app_id ++ "/model-config") none,
           DifyClient.mkRequest st "POST"
             ("/apps/" ++ app_id ++ "/model-config")
             (some (.obj (setKv kvs "prompt_template" prompt)))] ∧
      lookupKv (setKv kvs "prompt_template" prompt) "prompt_template"
        = some prompt ∧
      ∀ k, k ≠ "prompt_template" →
        lookupKv (setKv kvs "prompt_template" prompt) k = lookupKv kvs k) ∧
    (Json.eqStrLit mode "chat" = false →
      ∀ cp, lookupKv kvs "completion_params" = some (.obj cp) →
        (DifyClient.update_prompt st app_id prompt mode r1 r2).trace
          = [DifyClient.mkRequest st "GET"
               ("/apps/" ++ app_id ++ "/model-config") none,
             DifyClient.mkRequest st "POST"
               ("/apps/" ++ app_id ++ "/model-config")
               (some (.obj (setKv kvs "completion_params"
                 (.obj (setKv cp "prompt" prompt)))))] ∧
        (∀ k, k ≠ "completion_params" →
          lookupKv (setKv kvs "completion_params"
              (.obj (setKv cp "prompt" prompt))) k = lookupKv kvs k) ∧
        lookupKv (setKv cp "prompt" prompt) "prompt" = some prompt ∧
        (∀ k, k ≠ "prompt" →
          lookupKv (setKv cp "prompt" prompt) k = lookupKv cp k)) := by
  constructor
  · intro hm
    refine ⟨?_, lookupKv_setKv_self _ _ _,
      fun k hk => lookupKv_setKv_ne _ _ _ _ hk⟩
    simp [DifyClient.update_prompt, DifyClient.get_prompt_config,
      DifyClient.decodeOrRaise, h2, hb, DifyClient.patchPrompt, hm,
      DifyClient.update_app_config]
  · intro hm cp hcp
    refine ⟨?_, fun k hk => lookupKv_setKv_ne _ _ _ _ hk,
      lookupKv_setKv_self _ _ _, fun k hk => lookupKv_setKv_ne _ _ _ _ hk⟩
    simp [DifyClient.update_prompt, DifyClient.get_prompt_config,
      DifyClient.decodeOrRaise, h2, hb, DifyClient.patchPrompt, hm, hcp,
      DifyClient.update_app_config]

/-- Witness for C6: chat mode against a two-key configuration; the
write-back changes `prompt_template` and keeps `model`. -/
theorem update_prompt_single_key_frame_witness :
    (DifyClient.update_prompt (DifyClient.init "http://h") "app1"
        (.str "new") (.str "chat")
        ⟨200, .obj [("prompt_template", .str "old"), ("model", .str "m")]⟩
        ⟨200, .obj []⟩).trace
      = [DifyClient.mkRequest (DifyClient.init "http://h") "GET"
           "/apps/app1/model-config" none,
         DifyClient.mkRequest (DifyClient.init "http://h") "POST"
           "/apps/app1/model-config"
           (some (.obj [("prompt_template", .str "new"),
                        ("model", .str "m")]))] :=
  ((update_prompt_single_key_frame (DifyClient.init "http://h") "app1"
      (.str "new") (.str "chat")
      ⟨200, .obj [("prompt_template", .str "old"), ("model", .str "m")]⟩
      ⟨200, .obj []⟩ [("prompt_template", .str "old"), ("model", .str "m")]
      (by decide) rfl).1 rfl).1

/-- C7: `add_variable` fetches the parameters document and writes back,
with one POST, a document whose `user_input_form` is the fetched list
with the new variable appended at the end (an empty list standing in
when the key was absent), and which agrees with the fetched document at
every other key. -/
theorem add_variable_appends_preserving_rest (st : ClientState)
    (app_id : String) (variable_name variable_type label required max_length : Json)
    (r1 r2 : HttpResponse) (kvs : List (String × Json))
    (h2 : is2xx r1.status = true) (hb : r1.body = Json.obj kvs) :
    (∀ xs, lookupKv kvs "user_input_form" = some (.arr xs) →
      (DifyClient.add_variable st app_id variable_name variable_type label
          required max_length r1 r2).trace
        = [DifyClient.mkRequest st "GET"
             ("/apps/" ++ app_id ++ "/parameters") none,
           DifyClient.mkRequest st "POST"
             ("/apps/" ++ app_id ++ "/parameters")
             (some (.obj (setKv kvs "user_input_form"
               (.arr (xs ++ [DifyClient.newVariable variable_name
                 variable_type label required max_length])))))] ∧
      ∀ k, k ≠ "user_input_form" →
        lookupKv (setKv kvs "user_input_form"
            (.arr (xs ++ [DifyClient.newVariable variable_name variable_type
              label required max_length]))) k = lookupKv kvs k) ∧
    (lookupKv kvs "user_input_form" = none →
      (DifyClient.add_variable st app_id variable_name variable_type label
          required max_length r1 r2).trace
        = [DifyClient.mkRequest st "GET"
             ("/apps/" ++ app_id ++ "/parameters") none,
           DifyClient.mkRequest st "POST"
             ("/apps/" ++ app_id ++ "/parameters")
             (some (.obj (setKv kvs "user_input_form"
               (.arr [DifyClient.newVariable variable_name variable_type
                 label required max_length]))))] ∧
      ∀ k, k ≠ "user_input_form" →
        lookupKv (setKv kvs "user_input_form"
            (.arr [DifyClient.newVariable variable_name variable_type label
              required max_length])) k = lookupKv kvs k) := by
  constructor
  · intro xs hx
    refine ⟨?_, fun k hk => lookupKv_setKv_ne _ _ _ _ hk⟩
    simp [DifyClient.add_variable, DifyClient.get_app_parameters,
      DifyClient.decodeOrRaise, h2, hb, DifyClient.patchVariable, hx,
      DifyClient.update_app_parameters]
  · intro hx
    refine ⟨?_, fun k hk => lookupKv_setKv_ne _ _ _ _ hk⟩
    simp [DifyClient.add_variable, DifyClient.get_app_parameters,
      DifyClient.decodeOrRaise, h2, hb, DifyClient.patchVariable, hx,
      DifyClient.update_app_parameters, lookupKv_setKv_self,
      setKv_setKv_self]

/-- Witness for C7: appending to an existing one-element
`user_input_form` keeps the prior entry in front and the sibling key
unchanged. -/
theorem add_variable_appends_preserving_rest_witness :
    (DifyClient.add_variable (DifyClient.init "http://h") "app1"
        (.str "city") (.str "text-input") (.str "") (.bool false) (.num 48)
        ⟨200, .obj [("opening_statement", .str "hi"),
                    ("user_input_form", .arr [.str "v0"])]⟩
        ⟨200, .obj []⟩).trace
      = [DifyClient.mkRequest (DifyClient.init "http://h") "GET"
           "/apps/app1/parameters" none,
         DifyClient.mkRequest (DifyClient.init "http://h") "POST"
           "/apps/app1/parameters"
           (some (.obj [("opening_statement", .str "hi"),
             ("user_input_form", .arr [.str "v0",
               DifyClient.newVariable (.str "city") (.str "text-input")
                 (.str "") (.bool false) (.num 48)])]))] :=
  ((add_variable_appends_preserving_rest (DifyClient.init "http://h") "app1"
      (.str "city") (.str "text-input") (.str "") (.bool false) (.num 48)
      ⟨200, .obj [("opening_statement", .str "hi"),
                  ("user_input_form", .arr [.str "v0"])]⟩
      ⟨200, .obj []⟩
      [("opening_statement", .str "hi"),
       ("user_input_form", .arr [.str "v0"])]
      (by decide) rfl).1 [.str "v0"] rfl).1

/-- C1 (amended): while no client has been constructed (no `/login`
attempt has passed field validation yet), every protected endpoint
answers the fixed authentication-required error and issues no transport
call; a `/login` rejected for missing fields constructs no client and
issues no transport call, so the guarantee persists across such
attempts.  (A `/login` that passes validation but fails remotely leaves
a constructed client behind, after which the guarantee no longer
holds — see the counterexample.) -/
theorem auth_gate_rejects_before_client_exists
    (call : ApiServer.EndpointCall) (envBase : String) (r1 r2 : HttpResponse)
    (h : call.isProtected = true) :
    ApiServer.dispatch none call envBase r1 r2
      = { status := 401,
          body := ApiServer.errObj "Not authenticated. Call /login first",
          trace := [], client := none } ∧
    ∀ data (r1' r2' : HttpResponse), data.lookup "email" = none →
      (ApiServer.dispatch none (.loginEp data) envBase r1' r2').client
          = none ∧
      (ApiServer.dispatch none (.loginEp data) envBase r1' r2').trace
          = [] := by
  constructor
  · cases call <;>
      simp_all [ApiServer.dispatch, ApiServer.get_apps,
        ApiServer.get_app_detail, ApiServer.create_app, ApiServer.delete_app,
        ApiServer.update_prompt, ApiServer.add_variable,
        ApiServer.require_auth, ApiServer.EndpointCall.isProtected]
  · intro data r1' r2' hd
    constructor <;> simp [ApiServer.dispatch, ApiServer.login, hd, Json.truthy]

/-- Witness for C1 (amended): the `/apps` endpoint with no client. -/
theorem auth_gate_rejects_before_client_exists_witness :
    ApiServer.dispatch none .getAppsEp "http://h" ⟨200, .obj []⟩
        ⟨200, .obj []⟩
      = { status := 401,
          body := ApiServer.errObj "Not authenticated. Call /login first",
          trace := [], client := none } :=
  (auth_gate_rejects_before_client_exists .getAppsEp "http://h"
    ⟨200, .obj []⟩ ⟨200, .obj []⟩ rfl).1

/-- C1 counterexample: a `/login` attempt with well-formed fields that
fails at the remote (401) leaves the global client constructed, so the
next `/apps` request is dispatched — a transport call is issued (trace
length 1) and the response is 200, not an authentication-required
error. -/
theorem transport_call_after_failed_login :
    (ApiServer.dispatch none
        (.loginEp (.obj [("email", .str "e"), ("password", .str "p")]))
        "http://h" ⟨401, .obj []⟩ ⟨200, .obj []⟩).status = 401 ∧
    (ApiServer.dispatch
        (ApiServer.dispatch none
          (.loginEp (.obj [("email", .str "e"), ("password", .str "p")]))
          "http://h" ⟨401, .obj []⟩ ⟨200, .obj []⟩).client
        .getAppsEp "http://h" ⟨200, .obj [("data", .arr [])]⟩
        ⟨200, .obj []⟩).status = 200 ∧
    (ApiServer.dispatch
        (ApiServer.dispatch none
          (.loginEp (.obj [("email", .str "e"), ("password", .str "p")]))
          "http://h" ⟨401, .obj []⟩ ⟨200, .obj []⟩).client
        .getAppsEp "http://h" ⟨200, .obj [("data", .arr [])]⟩
        ⟨200, .obj []⟩).trace.length = 1 :=
  ⟨rfl, rfl, rfl⟩

/-- C5 (amended): no failed request is ever reissued.  A single-request
operation issues exactly its one request and raises the transport error
on a non-2xx response; a read-modify-write operation stops at the first
failing step — a failing fetch leaves a one-request trace, a failing
write-back a two-request trace (the fetch and the one write) — raising
the error unmodified in every case. -/
theorem remote_calls_never_retried (st : ClientState) (app_id : String)
    (prompt : Json) (r r1 r2 : HttpResponse) (kvs : List (String × Json)) :
    (is2xx r.status = false →
      (DifyClient.get_apps st r).req
          = DifyClient.mkRequest st "GET" "/apps" none ∧
      (DifyClient.get_apps st r).result
          = .error (.httpError r.status r.body)) ∧
    (∀ name mode icon description, is2xx r.status = false →
      (DifyClient.create_app st name mode icon description r).result
        = .error (.httpError r.status r.body)) ∧
    (is2xx r1.status = false →
      (DifyClient.update_prompt st app_id prompt (.str "chat") r1 r2).trace
        = [DifyClient.mkRequest st "GET"
             ("/apps/" ++ app_id ++ "/model-config") none] ∧
      (DifyClient.update_prompt st app_id prompt (.str "chat") r1 r2).result
        = .error (.httpError r1.status r1.body)) ∧
    (is2xx r1.status = true → r1.body = Json.obj kvs →
     is2xx r2.status = false →
      (DifyClient.update_prompt st app_id prompt (.str "chat") r1 r2).trace.length
        = 2 ∧
      (DifyClient.update_prompt st app_id prompt (.str "chat") r1 r2).result
        = .error (.httpError r2.status r2.body)) := by
  refine ⟨fun hr => ⟨rfl, ?_⟩, fun name mode icon description hr => ?_,
    fun hr => ?_, fun h1 hb h2 => ?_⟩
  · simp [DifyClient.get_apps, DifyClient.decodeOrRaise, hr]
  · simp [DifyClient.create_app, DifyClient.decodeOrRaise, hr]
  · constructor <;>
      simp [DifyClient.update_prompt, DifyClient.get_prompt_config,
        DifyClient.decodeOrRaise, hr]
  · constructor <;>
      simp [DifyClient.update_prompt, DifyClient.get_prompt_config,
        DifyClient.update_app_config, DifyClient.decodeOrRaise, h1, hb, h2,
        DifyClient.patchPrompt, Json.eqStrLit]

/-- Witness for C5 (amended): a 500 on `get_apps` raises and issues the
single GET request. -/
theorem remote_calls_never_retried_witness :
    (DifyClient.get_apps (DifyClient.init "http://h") ⟨500, .obj []⟩).result
      = .error (.httpError 500 (.obj [])) :=
  ((remote_calls_never_retried (DifyClient.init "http://h") "app1" (.str "p")
    ⟨500, .obj []⟩ ⟨500, .obj []⟩ ⟨500, .obj []⟩ []).1 (by decide)).2

/-- C5 counterexample: when the fetch of `update_prompt` succeeds and its
write-back answers 500, the operation has issued two requests to the
remote API — not exactly one — before raising the error (still without
any retry). -/
theorem failing_writeback_follows_successful_fetch :
    (DifyClient.update_prompt (DifyClient.init "http://h") "app1"
        (.str "p") (.str "chat")
        ⟨200, .obj [("model", .str "m")]⟩ ⟨500, .obj []⟩).trace.length = 2 ∧
    (DifyClient.update_prompt (DifyClient.init "http://h") "app1"
        (.str "p") (.str "chat")
        ⟨200, .obj [("model", .str "m")]⟩ ⟨500, .obj []⟩).trace.length ≠ 1 ∧
    (DifyClient.update_prompt (DifyClient.init "http://h") "app1"
        (.str "p") (.str "chat")
        ⟨200, .obj [("model", .str "m")]⟩ ⟨500, .obj []⟩).result
      = .error (.httpError 500 (.obj [])) :=
  ⟨rfl, by decide, rfl⟩

/-- C3 (amended): every failing front-end response has body
`{"error": msg}`, but its status is fixed by the endpoint and failure
site rather than by the failure class: 400 for missing login fields,
401 both for the auth gate and for any failure of the delegated call of
`/login`, and 500 for any failure of a protected endpoint delegated
operation — whatever its class. -/
theorem error_status_reflects_endpoint_not_class (cl : Option ClientState)
    (st : ClientState) (call : ApiServer.EndpointCall) (data : Json)
    (e p envBase : String) (r r2 : HttpResponse) :
    (call.isProtected = true →
      (ApiServer.dispatch none call envBase r r2).status = 401 ∧
      (ApiServer.dispatch none call envBase r r2).body
        = ApiServer.errObj "Not authenticated. Call /login first") ∧
    (data.lookup "email" = none →
      (ApiServer.dispatch cl (.loginEp data) envBase r r2).status = 400 ∧
      (ApiServer.dispatch cl (.loginEp data) envBase r r2).body
        = ApiServer.errObj "Email and password required") ∧
    (data.lookup "email" = some (.str e) → (e != "") = true →
     data.lookup "password" = some (.str p) → (p != "") = true →
     data.lookup "base_url" = none → is2xx r.status = false →
      (ApiServer.dispatch cl (.loginEp data) envBase r r2).status = 401 ∧
      (ApiServer.dispatch cl (.loginEp data) envBase r r2).body
        = ApiServer.errObj ((ClientErr.httpError r.status r.body).message)) ∧
    (is2xx r.status = false →
      (ApiServer.dispatch (some st) .getAppsEp envBase r r2).status = 500 ∧
      (ApiServer.dispatch (some st) .getAppsEp envBase r r2).body
        = ApiServer.errObj ((ClientErr.httpError r.status r.body).message)) ∧
    (is2xx r.status = false →
      (ApiServer.dispatch (some st) (.createAppEp data) envBase r r2).status
          = 500 ∧
      (ApiServer.dispatch (some st) (.createAppEp data) envBase r r2).body
        = ApiServer.errObj ((ClientErr.httpError r.status r.body).message)) := by
  refine ⟨?_, fun hd => ?_, fun he he' hp hp' hbase hr => ?_, fun hr => ?_,
    fun hr => ?_⟩
  · intro h
    cases call <;>
      simp_all [ApiServer.dispatch, ApiServer.get_apps,
        ApiServer.get_app_detail, ApiServer.create_app, ApiServer.delete_app,
        ApiServer.update_prompt, ApiServer.add_variable,
        ApiServer.require_auth, ApiServer.EndpointCall.isProtected]
  · constructor <;> simp [ApiServer.dispatch, ApiServer.login, hd, Json.truthy]
  · constructor <;>
      simp [ApiServer.dispatch, ApiServer.login, he, he', hp, hp', hbase,
        Json.truthy, DifyClient.login, DifyClient.decodeOrRaise, hr]
  · constructor <;>
      simp [ApiServer.dispatch, ApiServer.get_apps, ApiServer.require_auth,
        DifyClient.get_apps, DifyClient.decodeOrRaise, hr]
  · constructor <;>
      simp [ApiServer.dispatch, ApiServer.create_app, ApiServer.require_auth,
        DifyClient.create_app, DifyClient.decodeOrRaise, hr]

/-- Witness for C3 (amended): the gate 401, a missing-field 400, and an
upstream-failure 500 at concrete inputs. -/
theorem error_status_reflects_endpoint_not_class_witness :
    (ApiServer.dispatch none .getAppsEp "http://h" ⟨200, .obj []⟩
        ⟨200, .obj []⟩).status = 401 ∧
    (ApiServer.dispatch none (.loginEp (.obj [])) "http://h" ⟨200, .obj []⟩
        ⟨200, .obj []⟩).status = 400 ∧
    (ApiServer.dispatch (some (DifyClient.init "http://h")) .getAppsEp
        "http://h" ⟨500, .obj []⟩ ⟨200, .obj []⟩).status = 500 :=
  ⟨((error_status_reflects_endpoint_not_class none (DifyClient.init "http://h")
      .getAppsEp (.obj []) "e" "p" "http://h" ⟨200, .obj []⟩
      ⟨200, .obj []⟩).1 rfl).1,
   ((error_status_reflects_endpoint_not_class none (DifyClient.init "http://h")
      .getAppsEp (.obj []) "e" "p" "http://h" ⟨200, .obj []⟩
      ⟨200, .obj []⟩).2.1 rfl).1,
   ((error_status_reflects_endpoint_not_class none (DifyClient.init "http://h")
      .getAppsEp (.obj []) "e" "p" "http://h" ⟨500, .obj []⟩
      ⟨200, .obj []⟩).2.2.2.1 (by decide)).1⟩

/-- C3 counterexample: on an authenticated session, an upstream 401 — an
authentication failure (e.g. an expired token) — at the `/apps` endpoint
is surfaced with HTTP status 500, not the 401 required by the
classification stated in the claim. -/
theorem upstream_auth_failure_surfaces_as_500 :
    (ApiServer.dispatch
        (some (DifyClient.login (DifyClient.init "http://h") (.str "e")
          (.str "p")
          ⟨200, .obj [("data", .obj [("access_token", .str "tok")])]⟩).state)
        .getAppsEp "http://h" ⟨401, .obj []⟩ ⟨200, .obj []⟩).status = 500 ∧
    (ApiServer.dispatch
        (some (DifyClient.login (DifyClient.init "http://h") (.str "e")
          (.str "p")
          ⟨200, .obj [("data", .obj [("access_token", .str "tok")])]⟩).state)
        .getAppsEp "http://h" ⟨401, .obj []⟩ ⟨200, .obj []⟩).status ≠ 401 ∧
    (ApiServer.dispatch
        (some (DifyClient.login (DifyClient.init "http://h") (.str "e")
          (.str "p")
          ⟨200, .obj [("data", .obj [("access_token", .str "tok")])]⟩).state)
        .getAppsEp "http://h" ⟨401, .obj []⟩ ⟨200, .obj []⟩).body
      = ApiServer.errObj ((ClientErr.httpError 401 (.obj [])).message) :=
  ⟨rfl, by decide, rfl⟩

/-- C8 (amended): when the delegated client operation succeeds, every
protected endpoint answers the decoded JSON response of the remote API
verbatim (for read-modify-write endpoints, the final write and its
response); `/login` alone replaces the remote body with the fixed
`{"success": true, "message": "Logged in successfully"}` object. -/
theorem endpoint_success_body_verbatim_except_login (st : ClientState)
    (cl : Option ClientState) (app_id envBase : String) (data : Json)
    (r1 r2 : HttpResponse) (kvs : List (String × Json)) :
    (is2xx r1.status = true →
      (ApiServer.dispatch (some st) .getAppsEp envBase r1 r2).body
          = r1.body ∧
      (ApiServer.dispatch (some st) (.getAppDetailEp app_id) envBase
          r1 r2).body = r1.body ∧
      (ApiServer.dispatch (some st) (.deleteAppEp app_id) envBase
          r1 r2).body = r1.body ∧
      (ApiServer.dispatch (some st) (.createAppEp data) envBase
          r1 r2).body = r1.body) ∧
    (is2xx r1.status = true → r1.body = Json.obj kvs →
     Json.eqStrLit ((data.lookup "mode").getD (.str "chat")) "chat" = true →
     is2xx r2.status = true →
      (ApiServer.dispatch (some st) (.updatePromptEp app_id data) envBase
          r1 r2).body = r2.body) ∧
    (∀ xs, is2xx r1.status = true → r1.body = Json.obj kvs →
     lookupKv kvs "user_input_form" = some (.arr xs) →
     is2xx r2.status = true →
      (ApiServer.dispatch (some st) (.addVariableEp app_id data) envBase
          r1 r2).body = r2.body) ∧
    (∀ e' p' topt, data.lookup "email" = some (.str e') → (e' != "") = true →
     data.lookup "password" = some (.str p') → (p' != "") = true →
     data.lookup "base_url" = none → is2xx r1.status = true →
     DifyClient.tokenStep r1.body = .ok topt →
      (ApiServer.dispatch cl (.loginEp data) envBase r1 r2).body
        = .obj [("success", .bool true),
                ("message", .str "Logged in successfully")]) := by
  refine ⟨fun h1 => ?_, fun h1 hb hm h2 => ?_, fun xs h1 hb hx h2 => ?_,
    fun e' p' topt he he' hp hp' hbase h1 htok => ?_⟩
  · refine ⟨?_, ?_, ?_, ?_⟩ <;>
      simp [ApiServer.dispatch, ApiServer.get_apps, ApiServer.get_app_detail,
        ApiServer.delete_app, ApiServer.create_app, ApiServer.require_auth,
        DifyClient.get_apps, DifyClient.get_app_detail, DifyClient.delete_app,
        DifyClient.create_app, DifyClient.decodeOrRaise, h1]
  · simp [ApiServer.dispatch, ApiServer.update_prompt, ApiServer.require_auth,
      DifyClient.update_prompt, DifyClient.get_prompt_config,
      DifyClient.update_app_config, DifyClient.decodeOrRaise, h1, hb, hm, h2,
      DifyClient.patchPrompt]
  · simp [ApiServer.dispatch, ApiServer.add_variable, ApiServer.require_auth,
      DifyClient.add_variable, DifyClient.get_app_parameters,
      DifyClient.update_app_parameters, DifyClient.decodeOrRaise, h1, hb, hx,
      h2, DifyClient.patchVariable]
  · cases topt <;>
      simp [ApiServer.dispatch, ApiServer.login, he, he', hp, hp', hbase,
        Json.truthy, DifyClient.login, DifyClient.decodeOrRaise, h1, htok]

/-- Witness for C8 (amended): a concrete 2xx `get_apps` body is passed
through verbatim. -/
theorem endpoint_success_body_verbatim_except_login_witness :
    (ApiServer.dispatch (some (DifyClient.init "http://h")) .getAppsEp
        "http://h" ⟨200, .obj [("data", .arr [.str "app0"])]⟩
        ⟨200, .obj []⟩).body = .obj [("data", .arr [.str "app0"])] :=
  ((endpoint_success_body_verbatim_except_login (DifyClient.init "http://h")
    none "app1" "http://h" (.obj []) ⟨200, .obj [("data", .arr [.str "app0"])]⟩
    ⟨200, .obj []⟩ []).1 (by decide)).1

/-- C8 counterexample: a successful `/login` answers the fixed
`{"success": true, "message": ...}` object, not the remote login body
(which here carries `data.access_token`). -/
theorem login_success_body_not_remote_body :
    (ApiServer.dispatch none
        (.loginEp (.obj [("email", .str "e"), ("password", .str "p")]))
        "http://h" ⟨200, .obj [("data", .obj [("access_token", .str "tok")])]⟩
        ⟨200, .obj []⟩).body
      = .obj [("success", .bool true),
              ("message", .str "Logged in successfully")] ∧
    ¬((ApiServer.dispatch none
        (.loginEp (.obj [("email", .str "e"), ("password", .str "p")]))
        "http://h" ⟨200, .obj [("data", .obj [("access_token", .str "tok")])]⟩
        ⟨200, .obj []⟩).body
      = .obj [("data", .obj [("access_token", .str "tok")])]) := by
  refine ⟨rfl, fun h => ?_⟩
  have h3 : true = false :=
    congrArg (fun j => (Json.lookup j "success").isSome) h
  exact Bool.noConfusion h3

end DifyHelper
